import Mathlib

/-!
Verification of the frida_web client library (TypeScript) against its
natural-language specification.

The development shallowly embeds the protocol/session layer:
* `src/lib/script.ts` — message classification and the embedded RPC
  sub-protocol of `Script` / `ScriptServices`;
* `src/lib/session.ts` — the `Session` outbound batching state machine,
  detach state machine and inbound dispatch;
* `src/unnamed/part_000` — the `BrowserDBusClient` bus (serial-keyed call
  correlation, per-member argument adaptation, call timeout) and the
  `Client` connection memoization.

Asynchronous JavaScript runs single-threaded: every callback runs to
completion before the next event is processed, so each handler is embedded
as one atomic transition on an explicit state, and interleavings are
modelled as lists of events folded over the state.
-/

namespace FridaWeb

/-! ## JavaScript value model

Decoded JSON payloads (the `message` objects dispatched to a `Script`) are
modelled by `Value`.  `undefined` (an absent field) is represented by
`Option.none` at use sites. -/

inductive Value where
  | vnull
  | vbool (b : Bool)
  | vnum (n : Int)
  | vstr (s : String)
  | varr (xs : List Value)
  | vobj (fields : List (String × Value))

/-- Property access `v.k` on a JavaScript value: defined for plain objects,
`undefined` (`none`) on arrays, primitives and `null` (a parsed JSON array
has no named properties). -/
def jsGet (v : Value) (k : String) : Option Value :=
  match v with
  | .vobj fields => (fields.find? (fun p => p.1 == k)).map (·.2)
  | _ => none

/-- Property access lifted to a possibly-`undefined` receiver. -/
def jsGetOpt (v : Option Value) (k : String) : Option Value :=
  match v with
  | some w => jsGet w k
  | none => none

/-- `typeof v === "object"`: true for plain objects, arrays and `null`;
false for primitives and for `undefined`. -/
def jsTypeofIsObject (v : Option Value) : Bool :=
  match v with
  | some (.vobj _) => true
  | some (.varr _) => true
  | some .vnull => true
  | _ => false

/-- `Array.isArray(v)`. -/
def jsIsArray (v : Option Value) : Bool :=
  match v with
  | some (.varr _) => true
  | _ => false

/-- `v !== null` (note `undefined !== null` is true in JavaScript). -/
def jsNotNull (v : Option Value) : Bool :=
  match v with
  | some .vnull => false
  | _ => true

/-- `v === s` for a string literal `s`: only a string value can compare
equal to a string literal under strict equality. -/
def jsIsStr (v : Option Value) (s : String) : Bool :=
  match v with
  | some (.vstr t) => t == s
  | _ => false

/-- `v.length >= 1` for an array value. -/
def jsArrayLengthAtLeastOne (v : Option Value) : Bool :=
  match v with
  | some (.varr xs) => decide (1 ≤ xs.length)
  | _ => false

/-- `v[0]` for an array value. -/
def jsArrayHead (v : Option Value) : Option Value :=
  match v with
  | some (.varr xs) => xs.head?
  | _ => none

/-! ## Script message classification — `src/lib/script.ts`

`isInternalMessage`, `isRpcSendMessage` and `isLogMessage` embed the three
predicates at the bottom of `script.ts`; `MessageType.Send = "send"`,
`MessageType.Log = "log"`. -/

/-- `isInternalMessage` (script.ts:305): a send-type message whose payload
is an array of length ≥ 1 beginning with the reserved marker
`"frida:rpc"`. -/
def isInternalMessage (m : Value) : Bool :=
  jsIsStr (jsGet m "type") "send" &&
  jsTypeofIsObject (jsGet m "payload") &&
  jsIsArray (jsGet m "payload") &&
  jsArrayLengthAtLeastOne (jsGet m "payload") &&
  jsIsStr (jsArrayHead (jsGet m "payload")) "frida:rpc"

/-- `isRpcSendMessage` (script.ts:313): the same payload test without the
type check (its TypeScript argument is already narrowed to a send
message). -/
def isRpcSendMessage (m : Value) : Bool :=
  jsTypeofIsObject (jsGet m "payload") &&
  jsIsArray (jsGet m "payload") &&
  jsArrayLengthAtLeastOne (jsGet m "payload") &&
  jsIsStr (jsArrayHead (jsGet m "payload")) "frida:rpc"

/-- `isLogMessage` (script.ts:320): a log-type message, or a send-type
message whose payload object declares `type: "log"`. -/
def isLogMessage (m : Value) : Bool :=
  jsIsStr (jsGet m "type") "log" ||
  (jsIsStr (jsGet m "type") "send" &&
   jsTypeofIsObject (jsGet m "payload") &&
   jsNotNull (jsGet m "payload") &&
   jsIsStr (jsGetOpt (jsGet m "payload") "type") "log")

/-- Binary payload accompanying a dispatched message (an `ArrayBuffer`,
modelled as its byte list; `none` when absent). -/
abbrev BinaryData := List Nat

/-- Observable routing of one inbound decoded message dispatched on a
Script's `"message"` event:
* `rpc` — the `(id, operation, params)` triple handed to `onRpcMessage`
  by `ScriptServices.onMessage` (script.ts:219): the destructuring
  `const [, id, operation, ...params] = message.payload`;
* `log` — the `(level, payload)` pair handed to the current log handler;
* `user` — the `(message, data)` pair handed to the user-level message
  handler through the proxy installed by `ScriptServices.getProxy`
  (script.ts:202), which forwards exactly when `!isInternalMessage`. -/
structure DispatchOutcome where
  rpc : Option (Option Value × Option Value × List Value)
  log : Option (Option Value × Option Value)
  user : Option (Value × Option BinaryData)

/-- Modelled from the spec: the `Signal` / `SignalAdapter` glue
(`src/lib/signals.ts` is not part of the provided sources) delivers each
`"message"` event both to `ScriptServices.onMessage` and, through the
`getProxy` wrapper, to the user handler.  The two handler bodies below the
event fan-out are embedded verbatim from `script.ts` (`onMessage`,
`getProxy`). -/
def dispatchMessage (m : Value) (data : Option BinaryData) : DispatchOutcome :=
  { rpc :=
      if jsIsStr (jsGet m "type") "send" && isRpcSendMessage m then
        match jsGet m "payload" with
        | some (.varr payload) => some (payload.get? 1, payload.get? 2, payload.drop 3)
        | _ => none
      else none,
    log :=
      if jsIsStr (jsGet m "type") "send" && isRpcSendMessage m then none
      else if isLogMessage m then some (jsGet m "level", jsGet m "payload")
      else none,
    user :=
      if isInternalMessage m then none
      else some (m, data) }

/-! ## Script embedded RPC sub-protocol — `src/lib/script.ts`

`ScriptServices.pendingRequests` is a plain JavaScript object mapping
string request ids to completion handlers.  Every handler has the uniform
shape installed by `request` (script.ts:235): delete the entry, then
reject when `error !== null` and resolve otherwise.  The table is embedded
as the list of registered string keys (keys of a JavaScript object are
unique); the completion handler's effect is reported as an
`RpcOutcome`. -/

/-- What a completion handler does to the pending promise: resolve with a
result (`undefined` when absent), or reject with an `Error` reconstructed
from `(message, name, stack)`. -/
inductive RpcOutcome where
  | resolved (result : Option Value)
  | rejected (message name stack : Option Value)

/-- `ScriptServices.onRpcMessage` (script.ts:249): look up the pending
request by `id.toString()`; absent ids are dropped with no effect; an
`"ok"` operation resolves with `params[0]`; an `"error"` operation rejects
with an `Error` rebuilt from `params`; the handler removes itself from the
table before completing. -/
def onRpcMessage (pending : List String) (id : Int) (operation : String)
    (params : List Value) : List String × Option RpcOutcome :=
  let strId := toString id
  match pending.contains strId with
  | false => (pending, none)
  | true =>
    let outcome :=
      if operation == "ok" then RpcOutcome.resolved (params.get? 0)
      else if operation == "error" then
        RpcOutcome.rejected (params.get? 0) (params.get? 1) (params.get? 2)
      else RpcOutcome.resolved none
    (pending.erase strId, some outcome)

/-! ## Bus — `BrowserDBusClient` in `src/unnamed/part_000`

The pending-call table is a JavaScript `Map<number, {resolve, reject}>`;
it is embedded as the list of registered serials (`Map` keys are unique,
and `callMethod` only ever inserts fresh serials from an ascending
counter).  Each decoded wire message is processed atomically by
`handleMessage`; the caller-visible effect of resolving or rejecting a
pending promise is reported as a `BusEffect`. -/

/-- One decoded D-Bus wire message, as consumed by
`BrowserDBusClient.handleMessage` (part_000:116). -/
inductive WireMessage where
  | methodReturn (serial : Nat) (args : List Value)
  | errorReply (serial : Nat) (errorName : String) (args : List Value)
  | signal (objectPath interfaceName memberName : String) (args : List Value)

/-- Caller-visible effect of one bus event. -/
inductive BusEffect where
  | resolved (serial : Nat) (args : List Value)
  | rejectedError (serial : Nat) (errorName : String)
  | rejectedTimeout (serial : Nat)
  | signalDispatched (objectPath interfaceName memberName : String) (args : List Value)

/-- Bus state: the ascending serial counter and the serials with a live
`PendingCall` entry. -/
structure BusState where
  serialCounter : Nat
  pendingCalls : List Nat
deriving DecidableEq

/-- Processing of a single decoded message inside
`BrowserDBusClient.handleMessage` (part_000:119): a method-return or error
whose serial has a pending call removes it and resolves / rejects that
caller; an unmatched serial is silently dropped; a signal is fanned out to
its handlers (the handler table itself is not needed by the claims, so the
effect records the dispatch key and arguments). -/
def handleOne (st : BusState) (msg : WireMessage) : BusState × List BusEffect :=
  match msg with
  | .methodReturn serial args =>
    if st.pendingCalls.contains serial then
      ({ st with pendingCalls := st.pendingCalls.erase serial }, [.resolved serial args])
    else (st, [])
  | .errorReply serial errorName _ =>
    if st.pendingCalls.contains serial then
      ({ st with pendingCalls := st.pendingCalls.erase serial }, [.rejectedError serial errorName])
    else (st, [])
  | .signal p i m args => (st, [.signalDispatched p i m args])

/-- `handleMessage` over the list of messages decoded from one transport
frame, in order. -/
def handleMessage (st : BusState) (msgs : List WireMessage) : BusState × List BusEffect :=
  msgs.foldl (fun acc msg =>
    let step := handleOne acc.1 msg
    (step.1, acc.2 ++ step.2)) (st, [])

/-- Registration half of `BrowserDBusClient.callMethod` (part_000:161,248):
take the next serial from the ascending counter and install a
`PendingCall` for it; the fresh serial is returned. -/
def busRegisterCall (st : BusState) : BusState × Nat :=
  let serial := st.serialCounter
  ({ serialCounter := st.serialCounter + 1,
     pendingCalls := st.pendingCalls ++ [serial] }, serial)

/-- The fixed call deadline from `setTimeout(..., 30000)`
(part_000:252). -/
def callTimeoutMs : Nat := 30000

/-- Firing of the timeout scheduled by `callMethod` (part_000:252): if the
serial still has a pending call, remove it and reject the caller with a
timeout error; otherwise (the reply already arrived) do nothing. -/
def timeoutFire (st : BusState) (serial : Nat) : BusState × List BusEffect :=
  if st.pendingCalls.contains serial then
    ({ st with pendingCalls := st.pendingCalls.erase serial }, [.rejectedTimeout serial])
  else (st, [])

/-! ## Per-member argument adaptation — `callMethod` in `src/unnamed/part_000`

`callMethod` builds `message.types` / `message.args` per member before
encoding (part_000:176–243).  `adaptArgs` returns the final `message.args`
(`none` when the field is left unset), `memberSignature` the signature
string handed to `parseTypes`. -/

/-- `Object.entries` of a JavaScript object (empty for non-objects). -/
def jsEntries (v : Value) : List (String × Value) :=
  match v with
  | .vobj fields => fields
  | _ => []

/-- The `VariantDict` conversion shared by the `Attach` and `CreateScript`
branches: each `(key, variant)` entry becomes `[key, [signature, value]]`
(a missing `signature` / `value` field is read as `undefined`; `vnull`
stands in for it here, a corner no caller exercises). -/
def convertVariantDict (d : Value) : Value :=
  .varr ((jsEntries d).map (fun kv =>
    .varr [.vstr kv.1, .varr [(jsGet kv.2 "signature").getD .vnull,
                              (jsGet kv.2 "value").getD .vnull]]))

/-- The signature handed to `parseTypes` per member (`none` for members
with no branch). -/
def memberSignature (member : String) : Option String :=
  if member == "EnumerateProcesses" then some "a\x7bsv\x7d"
  else if member == "Attach" then some "ua\x7bsv\x7d"
  else if member == "CreateScript" then some "sa\x7bsv\x7d"
  else if member == "LoadScript" then some "((u))"
  else if member == "DestroyScript" then some "((u))"
  else if member == "PostMessages" then some "aau"
  else if member == "Resume" then some "u"
  else if member == "Close" then some ""
  else none

/-- The final `message.args` computed by `callMethod` from the
caller-supplied argument list (`none` means the field is never assigned
and stays `undefined`). -/
def adaptArgs (member : String) (args : Option (List Value)) : Option (List Value) :=
  if member == "EnumerateProcesses" then some [.varr []]
  else if member == "Attach" then
    match args with
    | some (pid :: d :: _) => some [pid, convertVariantDict d]
    | _ => args
  else if member == "CreateScript" then
    match args with
    | some (source :: d :: _) => some [source, convertVariantDict d]
    | _ => args
  else if member == "LoadScript" then
    match args with
    | some (a0 :: _) => some [a0]
    | _ => none
  else if member == "DestroyScript" then
    match args with
    | some (a0 :: _) => some [a0]
    | _ => none
  else if member == "PostMessages" then args
  else if member == "Resume" then args
  else if member == "Close" then some (args.getD [])
  else
    match args with
    | some (a0 :: rest) => some (a0 :: rest)
    | _ => none

/-! ## Session — `src/lib/session.ts`

The `Session` fields that the claims are about are embedded directly:
`_state`, `_lastRxBatchId`, `_pendingMessages`, `_nextSerial`,
`_pendingDeliveries` and `_scripts`.  In addition the model carries ghost
history that the code only exhibits through its calls to collaborators:
`inFlight` (the `postMessages` calls issued and not yet settled),
`issued` (every `postMessages` call ever issued, in order), `postedLog`
(every record handed to `_postToAgent`, with its assigned serial) and
`events` (the observable emissions and outbound calls). -/

/-- `AgentMessageRecord` (protocol.ts:61): `[kind, scriptId, text,
hasData, data]`; the one-element `AgentScriptId` tuple is embedded as its
handle. -/
structure AgentMessageRecord where
  kind : Nat
  scriptId : Nat
  text : String
  hasData : Bool
  data : List Nat
deriving DecidableEq

/-- A queued outbound message: `{serial, record}` (session.ts:235). -/
structure PendingMessage where
  serial : Nat
  record : AgentMessageRecord
deriving DecidableEq

/-- One issued `postMessages(records, batchId)` call; the queued messages
are kept with their serials so the batch-id invariant can be stated. -/
structure Batch where
  messages : List PendingMessage
  batchId : Nat
deriving DecidableEq

/-- The records of a batch, as passed to `postMessages`
(`messages.map(m => m.record)`, session.ts:164). -/
def Batch.records (b : Batch) : List AgentMessageRecord :=
  b.messages.map (·.record)

/-- `SessionDetachReason` (session.ts:222). -/
inductive DetachReason where
  | applicationRequested
  | processReplaced
  | processTerminated
  | serverTerminated
  | deviceLost
  | connectionTerminated
deriving DecidableEq

/-- `Session._state` (session.ts:59). -/
inductive SessionState where
  | attached
  | interrupted
  | detached
deriving DecidableEq

/-- `Script._state` (script.ts:58), as far as the Session claims need
it. -/
inductive ScriptState where
  | created
  | destroyed
deriving DecidableEq

/-- An entry of the `_scripts` registry (session.ts:67). -/
structure ScriptEntry where
  id : Nat
  state : ScriptState
deriving DecidableEq

/-- Ghost log of a Session's observable actions. -/
inductive SessionEvent where
  | scriptDestroyed (id : Nat)
  | closeAttempted (ok : Bool)
  | detachedEmitted (reason : DetachReason) (crash : Option Nat)
  | resumeCalled (rxBatchId : Nat)
deriving DecidableEq

structure Session where
  state : SessionState
  lastRxBatchId : Nat
  pendingMessages : List PendingMessage
  nextSerial : Nat
  pendingDeliveries : Nat
  scripts : List ScriptEntry
  inFlight : List Batch
  issued : List Batch
  postedLog : List PendingMessage
  events : List SessionEvent
deriving DecidableEq

/-- The freshly constructed Session (session.ts:59–65): attached, empty
queue, `_nextSerial = 1`, no delivery in flight. -/
def initialSession : Session :=
  { state := .attached
    lastRxBatchId := 0
    pendingMessages := []
    nextSerial := 1
    pendingDeliveries := 0
    scripts := []
    inFlight := []
    issued := []
    postedLog := []
    events := [] }

/-- `Session._deliverPendingMessages` (session.ts:153): a no-op when a
delivery is in flight (`_pendingDeliveries > 0`) or the queue is empty;
otherwise snapshot the queue, compute `batchId` as the serial of its last
element, clear the queue, increment `_pendingDeliveries` and issue one
`postMessages(records, batchId)` call. -/
def deliverPendingMessages (s : Session) : Session :=
  if s.pendingDeliveries > 0 then s
  else
    match s.pendingMessages.getLast? with
    | none => s
    | some last =>
      { s with
        pendingMessages := []
        pendingDeliveries := s.pendingDeliveries + 1
        inFlight := s.inFlight ++ [{ messages := s.pendingMessages, batchId := last.serial }]
        issued := s.issued ++ [{ messages := s.pendingMessages, batchId := last.serial }] }

/-- `Session._postToAgent` (session.ts:139): append `{serial: nextSerial++,
record}` to the queue, then attempt delivery. -/
def postToAgent (s : Session) (record : AgentMessageRecord) : Session :=
  deliverPendingMessages
    { s with
      pendingMessages := s.pendingMessages ++ [{ serial := s.nextSerial, record := record }]
      nextSerial := s.nextSerial + 1
      postedLog := s.postedLog ++ [{ serial := s.nextSerial, record := record }] }

/-- Settlement of the oldest in-flight `postMessages` call
(session.ts:169–174): both the `.then` and the `.catch` continuation
decrement `_pendingDeliveries`; only the success continuation re-attempts
delivery.  A settlement with nothing in flight cannot occur (every issued
call settles exactly once) and is a no-op. -/
def completeDelivery (s : Session) (ok : Bool) : Session :=
  match s.inFlight with
  | [] => s
  | _ :: rest =>
    if ok then
      deliverPendingMessages
        { s with inFlight := rest, pendingDeliveries := s.pendingDeliveries - 1 }
    else { s with inFlight := rest, pendingDeliveries := s.pendingDeliveries - 1 }

/-- The `destroyed` events emitted by destroying every registered script
(`script._destroy()` emits only when the script is still in the created
state, script.ts:119). -/
def destroyAllEvents (scripts : List ScriptEntry) : List SessionEvent :=
  scripts.filterMap (fun sc =>
    if sc.state = .created then some (.scriptDestroyed sc.id) else none)

/-- `Session.detach` (session.ts:86): return immediately when already
detached; otherwise transition to detached, destroy every registered
script and clear the registry, attempt the remote `close()` swallowing any
error (`closeOk` is the outcome of that call and influences nothing else),
and emit `"detached"` with reason application-requested and a null
crash. -/
def Session.detach (s : Session) (closeOk : Bool) : Session :=
  if s.state = .detached then s
  else
    { s with
      state := .detached
      scripts := []
      events := s.events ++ destroyAllEvents s.scripts
                ++ [.closeAttempted closeOk,
                    .detachedEmitted .applicationRequested none] }

/-- `Session._onDetached` (session.ts:204): return immediately when
already detached; otherwise transition to detached, destroy every script,
clear the registry and emit `"detached"` with the supplied reason and
crash (no remote close call). -/
def Session.onDetached (s : Session) (reason : DetachReason) (crash : Option Nat) : Session :=
  if s.state = .detached then s
  else
    { s with
      state := .detached
      scripts := []
      events := s.events ++ destroyAllEvents s.scripts
                ++ [.detachedEmitted reason crash] }

/-- `Session.resume` (session.ts:107): return immediately unless
interrupted; otherwise transition to attached, call the remote
`resume(_lastRxBatchId)`, replace `_lastRxBatchId` with the returned
watermark (`serverBatchId`, an environment input) and attempt
delivery. -/
def Session.resume (s : Session) (serverBatchId : Nat) : Session :=
  if s.state ≠ .interrupted then s
  else
    deliverPendingMessages
      { s with
        state := .attached
        lastRxBatchId := serverBatchId
        events := s.events ++ [.resumeCalled s.lastRxBatchId] }

/-- `Session.createScript` (session.ts:118): register the new script under
the id returned by the remote call (an environment input); the Session
state field is not consulted or changed. -/
def Session.createScript (s : Session) (id : Nat) : Session :=
  { s with scripts := s.scripts ++ [{ id := id, state := .created }] }

/-- `Session._handleIncomingMessages` / `_dispatchMessages`
(session.ts:148,177): update `_lastRxBatchId` unconditionally and dispatch
each record to its script (per-record routing is modelled at the Script
layer by `dispatchMessage`); no Session field other than
`_lastRxBatchId` changes. -/
def Session.handleIncoming (s : Session) (batchId : Nat) : Session :=
  { s with lastRxBatchId := batchId }

/-- The operations (caller calls and environment completions) that can act
on a Session. -/
inductive SessionOp where
  | post (record : AgentMessageRecord)
  | complete (ok : Bool)
  | detach (closeOk : Bool)
  | onDetached (reason : DetachReason) (crash : Option Nat)
  | resume (serverBatchId : Nat)
  | createScript (id : Nat)
  | incoming (batchId : Nat)

def applySessionOp (s : Session) : SessionOp → Session
  | .post record => postToAgent s record
  | .complete ok => completeDelivery s ok
  | .detach closeOk => Session.detach s closeOk
  | .onDetached reason crash => Session.onDetached s reason crash
  | .resume serverBatchId => Session.resume s serverBatchId
  | .createScript id => Session.createScript s id
  | .incoming batchId => Session.handleIncoming s batchId

/-- A Session after an arbitrary interleaving of operations. -/
def runSession (s : Session) (ops : List SessionOp) : Session :=
  ops.foldl applySessionOp s

/-- The records submitted through `_postToAgent` by an operation
sequence, in submission order. -/
def postedRecords (ops : List SessionOp) : List AgentMessageRecord :=
  ops.filterMap (fun op =>
    match op with
    | .post record => some record
    | _ => none)

/-! ## Client connection memoization — `Client` in `src/unnamed/part_000`

`_hostConnectionRequest` memoizes the promise of the single connection
attempt; every caller of `_getHostConnection` before the slot is cleared
shares that promise, and therefore its eventual result (success or
failure).  The attempt is identified by a ghost attempt number;
`transportsOpened` counts the `new WebSocketWrapper(...)` constructions
performed by `_doGetHostConnection` (one per attempt). -/

structure ClientState where
  hostConnectionRequest : Option Nat
  transportsOpened : Nat
  sessions : List Session
deriving DecidableEq

/-- `Client._getHostConnection` (part_000:572): when the slot is empty,
start `_doGetHostConnection` (opening exactly one transport) and memoize
its promise; in every case return the memoized promise. -/
def getHostConnection (c : ClientState) : ClientState × Nat :=
  match c.hostConnectionRequest with
  | some attempt => (c, attempt)
  | none =>
    ({ c with
       hostConnectionRequest := some c.transportsOpened
       transportsOpened := c.transportsOpened + 1 }, c.transportsOpened)

/-- The transport `close` handler installed by `_doGetHostConnection`
(part_000:586): clear the shared connection slot and call
`_onDetached(ConnectionTerminated, null)` on every Session in the
registry, unconditionally. -/
def onTransportClose (c : ClientState) : ClientState :=
  { c with
    hostConnectionRequest := none
    sessions := c.sessions.map (fun s => Session.onDetached s .connectionTerminated none) }

/-! ## Auxiliary predicates and sample inputs -/

/-- The single-flight accounting of a Session: `_pendingDeliveries` counts
exactly the unsettled `postMessages` calls, and never exceeds one. -/
def DeliveryInv (s : Session) : Prop :=
  s.pendingDeliveries = s.inFlight.length ∧ s.pendingDeliveries ≤ 1

/-- A well-formed issued batch: non-empty, with `batchId` equal to the
serial assigned to its last record. -/
def batchOk (b : Batch) : Bool :=
  match b.messages.getLast? with
  | none => false
  | some m => b.batchId == m.serial

/-- The batch-accounting invariant of a Session: the record lists of all
issued `postMessages` calls, concatenated with the still-queued records in
order, are exactly the records handed to `_postToAgent`, and every issued
batch is well formed. -/
def BatchInv (s : Session) : Prop :=
  s.issued.flatMap (·.messages) ++ s.pendingMessages = s.postedLog ∧
  s.issued.all batchOk = true

def sampleRecord1 : AgentMessageRecord :=
  { kind := 1, scriptId := 1, text := "a", hasData := false, data := [] }

def sampleRecord2 : AgentMessageRecord :=
  { kind := 1, scriptId := 1, text := "b", hasData := false, data := [] }

/-- A decoded log message `{type: "log", level: "info", payload:
"hello"}`. -/
def logMessageSample : Value :=
  .vobj [("type", .vstr "log"), ("level", .vstr "info"), ("payload", .vstr "hello")]

/-- A decoded internal RPC reply `{type: "send", payload: ["frida:rpc", 1,
"ok", null]}`. -/
def rpcMessageSample : Value :=
  .vobj [("type", .vstr "send"),
         ("payload", .varr [.vstr "frida:rpc", .vnum 1, .vstr "ok", .vnull])]

/-- A plain user message `{type: "send", payload: 42}`. -/
def plainSendSample : Value :=
  .vobj [("type", .vstr "send"), ("payload", .vnum 42)]

/-- A fresh Client with no connection attempt and no sessions. -/
def sampleClient0 : ClientState :=
  { hostConnectionRequest := none, transportsOpened := 0, sessions := [] }

/-- A fresh Client holding one attached Session. -/
def sampleClient1 : ClientState :=
  { hostConnectionRequest := none, transportsOpened := 0, sessions := [initialSession] }

/-! ## Session lemmas -/

theorem deliver_state (s : Session) : (deliverPendingMessages s).state = s.state := by
  unfold deliverPendingMessages
  split
  · rfl
  · split <;> rfl

theorem deliver_postedLog (s : Session) :
    (deliverPendingMessages s).postedLog = s.postedLog := by
  unfold deliverPendingMessages
  split
  · rfl
  · split <;> rfl

theorem deliver_deliveryInv {s : Session} (h : DeliveryInv s) :
    DeliveryInv (deliverPendingMessages s) := by
  obtain ⟨h1, h2⟩ := h
  unfold deliverPendingMessages
  split
  · exact ⟨h1, h2⟩
  · rename_i hpd
    split
    · exact ⟨h1, h2⟩
    · constructor
      · simp only [List.length_append, List.length_singleton]
        omega
      · show s.pendingDeliveries + 1 ≤ 1
        omega

theorem completeDelivery_deliveryInv {s : Session} (ok : Bool) (h : DeliveryInv s) :
    DeliveryInv (completeDelivery s ok) := by
  obtain ⟨h1, h2⟩ := h
  unfold completeDelivery
  split
  · exact ⟨h1, h2⟩
  · rename_i b rest heq
    have hlen : s.pendingDeliveries = rest.length + 1 := by
      rw [h1, heq]; simp
    have hinv :
        DeliveryInv { s with inFlight := rest, pendingDeliveries := s.pendingDeliveries - 1 } := by
      constructor
      · show s.pendingDeliveries - 1 = rest.length
        omega
      · show s.pendingDeliveries - 1 ≤ 1
        omega
    split
    · exact deliver_deliveryInv hinv
    · exact hinv

theorem applySessionOp_deliveryInv {s : Session} (op : SessionOp) (h : DeliveryInv s) :
    DeliveryInv (applySessionOp s op) := by
  cases op with
  | post record =>
    exact deliver_deliveryInv ⟨h.1, h.2⟩
  | complete ok =>
    exact completeDelivery_deliveryInv ok h
  | detach closeOk =>
    show DeliveryInv (Session.detach s closeOk)
    unfold Session.detach
    split
    · exact h
    · exact ⟨h.1, h.2⟩
  | onDetached reason crash =>
    show DeliveryInv (Session.onDetached s reason crash)
    unfold Session.onDetached
    split
    · exact h
    · exact ⟨h.1, h.2⟩
  | resume serverBatchId =>
    show DeliveryInv (Session.resume s serverBatchId)
    unfold Session.resume
    split
    · exact h
    · exact deliver_deliveryInv ⟨h.1, h.2⟩
  | createScript id => exact ⟨h.1, h.2⟩
  | incoming batchId => exact ⟨h.1, h.2⟩

theorem runSession_deliveryInv {s : Session} (ops : List SessionOp) (h : DeliveryInv s) :
    DeliveryInv (runSession s ops) := by
  induction ops generalizing s with
  | nil => exact h
  | cons op rest ih => exact ih (applySessionOp_deliveryInv op h)

theorem deliver_batchInv {s : Session} (h : BatchInv s) :
    BatchInv (deliverPendingMessages s) := by
  obtain ⟨h1, h2⟩ := h
  unfold deliverPendingMessages
  split
  · exact ⟨h1, h2⟩
  · split
    · exact ⟨h1, h2⟩
    · rename_i last hlast
      constructor
      · show (s.issued ++ [({ messages := s.pendingMessages, batchId := last.serial } : Batch)]).flatMap
            (·.messages) ++ [] = s.postedLog
        simp only [List.flatMap_append, List.flatMap_cons, List.flatMap_nil,
          List.append_nil]
        exact h1
      · show (s.issued ++ [({ messages := s.pendingMessages, batchId := last.serial } : Batch)]).all
            batchOk = true
        simp only [List.all_append, List.all_cons, List.all_nil]
        simp [h2, batchOk, hlast]

theorem postToAgent_batchInv {s : Session} (record : AgentMessageRecord) (h : BatchInv s) :
    BatchInv (postToAgent s record) := by
  apply deliver_batchInv
  obtain ⟨h1, h2⟩ := h
  constructor
  · show s.issued.flatMap (·.messages) ++
      (s.pendingMessages ++ [{ serial := s.nextSerial, record := record }]) =
      s.postedLog ++ [{ serial := s.nextSerial, record := record }]
    rw [← List.append_assoc, h1]
  · exact h2

theorem completeDelivery_batchInv {s : Session} (ok : Bool) (h : BatchInv s) :
    BatchInv (completeDelivery s ok) := by
  unfold completeDelivery
  split
  · exact h
  · split
    · exact deliver_batchInv ⟨h.1, h.2⟩
    · exact ⟨h.1, h.2⟩

theorem applySessionOp_batchInv {s : Session} (op : SessionOp) (h : BatchInv s) :
    BatchInv (applySessionOp s op) := by
  cases op with
  | post record => exact postToAgent_batchInv record h
  | complete ok => exact completeDelivery_batchInv ok h
  | detach closeOk =>
    show BatchInv (Session.detach s closeOk)
    unfold Session.detach
    split
    · exact h
    · exact ⟨h.1, h.2⟩
  | onDetached reason crash =>
    show BatchInv (Session.onDetached s reason crash)
    unfold Session.onDetached
    split
    · exact h
    · exact ⟨h.1, h.2⟩
  | resume serverBatchId =>
    show BatchInv (Session.resume s serverBatchId)
    unfold Session.resume
    split
    · exact h
    · exact deliver_batchInv ⟨h.1, h.2⟩
  | createScript id => exact ⟨h.1, h.2⟩
  | incoming batchId => exact ⟨h.1, h.2⟩

theorem runSession_batchInv {s : Session} (ops : List SessionOp) (h : BatchInv s) :
    BatchInv (runSession s ops) := by
  induction ops generalizing s with
  | nil => exact h
  | cons op rest ih => exact ih (applySessionOp_batchInv op h)

theorem applySessionOp_postedLogMap (s : Session) (op : SessionOp) :
    (applySessionOp s op).postedLog.map (·.record) =
      s.postedLog.map (·.record) ++ postedRecords [op] := by
  cases op with
  | post record =>
    show (postToAgent s record).postedLog.map (·.record) = _
    unfold postToAgent
    rw [deliver_postedLog]
    simp [postedRecords]
  | complete ok =>
    show (completeDelivery s ok).postedLog.map (·.record) = _
    unfold completeDelivery
    split
    · simp [postedRecords]
    · split
      · rw [deliver_postedLog]
        simp [postedRecords]
      · simp [postedRecords]
  | detach closeOk =>
    show (Session.detach s closeOk).postedLog.map (·.record) = _
    unfold Session.detach
    split <;> simp [postedRecords]
  | onDetached reason crash =>
    show (Session.onDetached s reason crash).postedLog.map (·.record) = _
    unfold Session.onDetached
    split <;> simp [postedRecords]
  | resume serverBatchId =>
    show (Session.resume s serverBatchId).postedLog.map (·.record) = _
    unfold Session.resume
    split
    · simp [postedRecords]
    · rw [deliver_postedLog]
      simp [postedRecords]
  | createScript id => simp [applySessionOp, Session.createScript, postedRecords]
  | incoming batchId => simp [applySessionOp, Session.handleIncoming, postedRecords]

theorem runSession_postedRecords (ops : List SessionOp) (s : Session) :
    (runSession s ops).postedLog.map (·.record) =
      s.postedLog.map (·.record) ++ postedRecords ops := by
  induction ops generalizing s with
  | nil => simp [runSession, postedRecords]
  | cons op rest ih =>
    show (runSession (applySessionOp s op) rest).postedLog.map (·.record) = _
    rw [ih, applySessionOp_postedLogMap, List.append_assoc]
    congr 1
    cases op <;> simp [postedRecords]

theorem deliver_issued_mono (s : Session) :
    ∃ t, (deliverPendingMessages s).issued = s.issued ++ t := by
  unfold deliverPendingMessages
  split
  · exact ⟨[], by simp⟩
  · split
    · exact ⟨[], by simp⟩
    · rename_i last hlast
      exact ⟨[{ messages := s.pendingMessages, batchId := last.serial }], rfl⟩

theorem applySessionOp_issued_mono (s : Session) (op : SessionOp) :
    ∃ t, (applySessionOp s op).issued = s.issued ++ t := by
  cases op with
  | post record => exact deliver_issued_mono _
  | complete ok =>
    show ∃ t, (completeDelivery s ok).issued = s.issued ++ t
    unfold completeDelivery
    split
    · exact ⟨[], by simp⟩
    · split
      · exact deliver_issued_mono _
      · exact ⟨[], by simp⟩
  | detach closeOk =>
    show ∃ t, (Session.detach s closeOk).issued = s.issued ++ t
    unfold Session.detach
    split <;> exact ⟨[], by simp⟩
  | onDetached reason crash =>
    show ∃ t, (Session.onDetached s reason crash).issued = s.issued ++ t
    unfold Session.onDetached
    split <;> exact ⟨[], by simp⟩
  | resume serverBatchId =>
    show ∃ t, (Session.resume s serverBatchId).issued = s.issued ++ t
    unfold Session.resume
    split
    · exact ⟨[], by simp⟩
    · exact deliver_issued_mono _
  | createScript id => exact ⟨[], by simp [applySessionOp, Session.createScript]⟩
  | incoming batchId => exact ⟨[], by simp [applySessionOp, Session.handleIncoming]⟩

theorem runSession_issued_mono (ops : List SessionOp) (s : Session) :
    ∃ t, (runSession s ops).issued = s.issued ++ t := by
  induction ops generalizing s with
  | nil => exact ⟨[], by simp [runSession]⟩
  | cons op rest ih =>
    obtain ⟨t1, ht1⟩ := applySessionOp_issued_mono s op
    obtain ⟨t2, ht2⟩ := ih (applySessionOp s op)
    exact ⟨t1 ++ t2, by
      show (runSession (applySessionOp s op) rest).issued = _
      rw [ht2, ht1, List.append_assoc]⟩

/-! ## Claim theorems — Session outbound flow -/

/-- C1: for every Session and every interleaving of post and delivery
completions, at most one `postMessages` call is in flight at any instant
(`_pendingDeliveries` counts exactly the unsettled `postMessages` calls
and never exceeds one); `_deliverPendingMessages` is a no-op whenever a
delivery is already in flight or the pending queue is empty, so a new
delivery is issued only after the previous one has resolved or
rejected. -/
theorem sessionSingleFlightDelivery :
    (∀ ops : List SessionOp,
       (runSession initialSession ops).pendingDeliveries ≤ 1 ∧
       (runSession initialSession ops).pendingDeliveries =
         (runSession initialSession ops).inFlight.length) ∧
    (∀ s : Session, 0 < s.pendingDeliveries → deliverPendingMessages s = s) ∧
    (∀ s : Session, s.pendingMessages = [] → deliverPendingMessages s = s) := by
  refine ⟨?_, ?_, ?_⟩
  · intro ops
    have h := runSession_deliveryInv (s := initialSession) ops ⟨rfl, by decide⟩
    exact ⟨h.2, h.1⟩
  · intro s hs
    unfold deliverPendingMessages
    simp [hs]
  · intro s hs
    unfold deliverPendingMessages
    rw [hs]
    simp

/-- Witness for `sessionSingleFlightDelivery` at concrete inputs. -/
theorem sessionSingleFlightDelivery_witness :
    (runSession initialSession
      [SessionOp.post sampleRecord1, SessionOp.complete true]).pendingDeliveries ≤ 1 ∧
    deliverPendingMessages { initialSession with pendingDeliveries := 1 } =
      { initialSession with pendingDeliveries := 1 } ∧
    deliverPendingMessages initialSession = initialSession :=
  ⟨(sessionSingleFlightDelivery.1 [SessionOp.post sampleRecord1, SessionOp.complete true]).1,
   sessionSingleFlightDelivery.2.1 { initialSession with pendingDeliveries := 1 } (by decide),
   sessionSingleFlightDelivery.2.2 initialSession rfl⟩

/-- C2 counterexample: the claim "every record is included in exactly one
postMessages invocation's record list" fails on the concrete interleaving
`[post r1, post r2, complete false]`: `r2` was submitted while the batch
carrying `r1` was in flight; that delivery failed, nothing re-attempts
delivery, and `r2` sits in the queue, included in no `postMessages`
invocation — even after a further settlement event. -/
theorem sessionBatchAccounting_cex :
    postedRecords [SessionOp.post sampleRecord1, SessionOp.post sampleRecord2,
        SessionOp.complete false] = [sampleRecord1, sampleRecord2] ∧
    (runSession initialSession [SessionOp.post sampleRecord1, SessionOp.post sampleRecord2,
        SessionOp.complete false]).inFlight = [] ∧
    (runSession initialSession [SessionOp.post sampleRecord1, SessionOp.post sampleRecord2,
        SessionOp.complete false]).issued.flatMap Batch.records = [sampleRecord1] ∧
    (runSession initialSession [SessionOp.post sampleRecord1, SessionOp.post sampleRecord2,
        SessionOp.complete false]).pendingMessages.map (·.record) = [sampleRecord2] ∧
    (runSession initialSession [SessionOp.post sampleRecord1, SessionOp.post sampleRecord2,
        SessionOp.complete false, SessionOp.complete true]).issued.flatMap Batch.records =
      [sampleRecord1] :=
  ⟨rfl, rfl, rfl, rfl, rfl⟩

/-- C2 (amended): every record handed to `_postToAgent` is included in at
most one `postMessages` invocation's record list — exactly one once it has
been flushed, while unflushed records remain queued in order: the issued
record lists concatenated with the still-queued records are exactly the
submitted records in submission order.  Every issued batch's `batchId`
equals the per-Session serial assigned to its last record.  Issued batches
are append-only, so a failed batch's records are never requeued and never
appear in a later invocation. -/
theorem sessionBatchAccounting :
    ∀ ops : List SessionOp,
      (runSession initialSession ops).issued.flatMap (·.messages) ++
        (runSession initialSession ops).pendingMessages =
        (runSession initialSession ops).postedLog ∧
      (runSession initialSession ops).postedLog.map (·.record) = postedRecords ops ∧
      (runSession initialSession ops).issued.all batchOk = true ∧
      ∀ extra : List SessionOp, ∃ t,
        (runSession initialSession (ops ++ extra)).issued =
          (runSession initialSession ops).issued ++ t := by
  intro ops
  have h := runSession_batchInv (s := initialSession) ops ⟨rfl, rfl⟩
  refine ⟨h.1, ?_, h.2, ?_⟩
  · have := runSession_postedRecords ops initialSession
    simpa using this
  · intro extra
    have : runSession initialSession (ops ++ extra) =
        runSession (runSession initialSession ops) extra := by
      simp [runSession, List.foldl_append]
    rw [this]
    exact runSession_issued_mono extra _

theorem detach_state (s : Session) (closeOk : Bool) :
    (Session.detach s closeOk).state = .detached := by
  unfold Session.detach
  split
  · rename_i h
    exact h
  · rfl

theorem onDetached_state (s : Session) (reason : DetachReason) (crash : Option Nat) :
    (Session.onDetached s reason crash).state = .detached := by
  unfold Session.onDetached
  split
  · rename_i h
    exact h
  · rfl

theorem detach_noop {x : Session} (closeOk : Bool) (hx : x.state = .detached) :
    Session.detach x closeOk = x := by
  unfold Session.detach
  rw [if_pos hx]

theorem resume_noop {x : Session} (w : Nat) (hx : x.state ≠ .interrupted) :
    Session.resume x w = x := by
  unfold Session.resume
  rw [if_pos hx]

/-- C7: `detach()` is idempotent: the first call transitions the Session
to detached, destroys every registered Script and clears the registry,
attempts the remote close call swallowing its outcome (`closeOk` is
universally quantified, so detach succeeds locally regardless of a close
failure), and emits `"detached"` with reason application-requested; a
second `detach()`, or a `detach()` after a remote detach notification,
returns the state unchanged — no additional observable effect. -/
theorem sessionDetachIdempotent :
    (∀ (s : Session) (a b : Bool),
       Session.detach (Session.detach s a) b = Session.detach s a) ∧
    (∀ (s : Session) (reason : DetachReason) (crash : Option Nat) (a : Bool),
       Session.detach (Session.onDetached s reason crash) a =
         Session.onDetached s reason crash) ∧
    (∀ (s : Session) (a : Bool), (Session.detach s a).state = .detached) ∧
    (∀ (s : Session) (a : Bool), s.state ≠ .detached →
       (Session.detach s a).scripts = [] ∧
       (Session.detach s a).events =
         s.events ++ destroyAllEvents s.scripts ++
           [.closeAttempted a, .detachedEmitted .applicationRequested none]) := by
  refine ⟨?_, ?_, detach_state, ?_⟩
  · intro s a b
    exact detach_noop b (detach_state s a)
  · intro s reason crash a
    exact detach_noop a (onDetached_state s reason crash)
  · intro s a h
    unfold Session.detach
    rw [if_neg h]
    exact ⟨rfl, rfl⟩

/-- Witness for `sessionDetachIdempotent` at concrete inputs. -/
theorem sessionDetachIdempotent_witness :
    Session.detach (Session.detach initialSession true) false =
      Session.detach initialSession true ∧
    (Session.detach initialSession false).scripts = [] :=
  ⟨sessionDetachIdempotent.1 initialSession true false,
   (sessionDetachIdempotent.2.2.2 initialSession false (by decide)).1⟩

/-- C10: the detached state is terminal: no operation (post, delivery
completion, detach, remote detach, resume, createScript, inbound
dispatch) moves a detached Session back to attached or interrupted;
`resume()` is a full no-op in every state other than interrupted and
transitions interrupted to attached. -/
theorem sessionDetachedTerminal :
    (∀ (s : Session) (op : SessionOp), s.state = .detached →
       (applySessionOp s op).state = .detached) ∧
    (∀ (s : Session) (w : Nat), s.state ≠ .interrupted → Session.resume s w = s) ∧
    (∀ (s : Session) (w : Nat), s.state = .interrupted →
       (Session.resume s w).state = .attached) := by
  refine ⟨?_, fun s w h => resume_noop w h, ?_⟩
  · intro s op h
    cases op with
    | post record =>
      show (postToAgent s record).state = .detached
      unfold postToAgent
      rw [deliver_state]
      exact h
    | complete ok =>
      show (completeDelivery s ok).state = .detached
      unfold completeDelivery
      split
      · exact h
      · split
        · rw [deliver_state]
          exact h
        · exact h
    | detach closeOk => exact detach_state s closeOk
    | onDetached reason crash => exact onDetached_state s reason crash
    | resume serverBatchId =>
      show (Session.resume s serverBatchId).state = .detached
      rw [resume_noop serverBatchId (by rw [h]; exact fun hc => nomatch hc)]
      exact h
    | createScript id => exact h
    | incoming batchId => exact h
  · intro s w h
    unfold Session.resume
    rw [if_neg (not_not_intro h), deliver_state]

/-- Witness for `sessionDetachedTerminal` at concrete inputs. -/
theorem sessionDetachedTerminal_witness :
    (applySessionOp { initialSession with state := SessionState.detached }
       (SessionOp.resume 5)).state = SessionState.detached ∧
    Session.resume initialSession 5 = initialSession ∧
    (Session.resume { initialSession with state := SessionState.interrupted } 5).state =
      SessionState.attached :=
  ⟨sessionDetachedTerminal.1 { initialSession with state := SessionState.detached }
     (SessionOp.resume 5) (by decide),
   sessionDetachedTerminal.2.1 initialSession 5 (by decide),
   sessionDetachedTerminal.2.2 { initialSession with state := SessionState.interrupted } 5
     (by decide)⟩

/-! ## Claim theorems — Bus -/

/-- C5: reply correlation is keyed by the serial carried in the reply, not
by arrival order: a method-return or error message resolves or rejects
exactly the pending call with that serial and removes it; an unmatched
serial is dropped; in particular two calls with serials `s1 ≠ s2` whose
replies arrive in reverse order each resolve their own caller. -/
theorem busSerialCorrelation :
    (∀ (st : BusState) (serial : Nat) (args : List Value),
       st.pendingCalls.contains serial = true →
       handleOne st (.methodReturn serial args) =
         ({ st with pendingCalls := st.pendingCalls.erase serial },
          [.resolved serial args])) ∧
    (∀ (st : BusState) (serial : Nat) (errorName : String) (args : List Value),
       st.pendingCalls.contains serial = true →
       handleOne st (.errorReply serial errorName args) =
         ({ st with pendingCalls := st.pendingCalls.erase serial },
          [.rejectedError serial errorName])) ∧
    (∀ (st : BusState) (serial : Nat) (args : List Value),
       st.pendingCalls.contains serial = false →
       handleOne st (.methodReturn serial args) = (st, [])) ∧
    (∀ (st : BusState) (s1 s2 : Nat) (a1 a2 : List Value),
       st.pendingCalls.contains s1 = true →
       st.pendingCalls.contains s2 = true →
       s1 ≠ s2 →
       handleMessage st [.methodReturn s2 a2, .methodReturn s1 a1] =
         ({ st with pendingCalls := (st.pendingCalls.erase s2).erase s1 },
          [.resolved s2 a2, .resolved s1 a1])) := by
  refine ⟨?_, ?_, ?_, ?_⟩
  · intro st serial args h
    simp only [handleOne]
    rw [if_pos h]
  · intro st serial errorName args h
    simp only [handleOne]
    rw [if_pos h]
  · intro st serial args h
    simp only [handleOne]
    rw [if_neg (by rw [h]; simp)]
  · intro st s1 s2 a1 a2 h1 h2 hne
    have hm1 : s1 ∈ st.pendingCalls := by simpa using h1
    have hm2 : s2 ∈ st.pendingCalls := by simpa using h2
    have hmem : s1 ∈ st.pendingCalls.erase s2 := (List.mem_erase_of_ne hne).mpr hm1
    simp [handleMessage, handleOne, hm2, hmem]

/-- Witness for `busSerialCorrelation` at concrete inputs. -/
theorem busSerialCorrelation_witness :
    handleMessage { serialCounter := 3, pendingCalls := [1, 2] }
        [WireMessage.methodReturn 2 [], WireMessage.methodReturn 1 []] =
      ({ serialCounter := 3, pendingCalls := [] },
       [BusEffect.resolved 2 [], BusEffect.resolved 1 []]) := by
  rw [busSerialCorrelation.2.2.2 { serialCounter := 3, pendingCalls := [1, 2] } 1 2 [] []
    (by decide) (by decide) (by decide)]
  rfl

/-- C6: a call with no reply before the fixed 30-second deadline has its
pending entry removed and its caller rejected with a timeout error when
the timer fires; a reply carrying that serial after the timeout removal
finds no pending call and has no effect, so the caller is never settled
twice (the `Nodup` hypothesis reflects the key-uniqueness of the
JavaScript `Map` holding the pending calls). -/
theorem busCallTimeout :
    callTimeoutMs = 30000 ∧
    (∀ (st : BusState) (serial : Nat),
       st.pendingCalls.contains serial = true →
       timeoutFire st serial =
         ({ st with pendingCalls := st.pendingCalls.erase serial },
          [.rejectedTimeout serial])) ∧
    (∀ (st : BusState) (serial : Nat) (args : List Value),
       st.pendingCalls.Nodup →
       handleOne (timeoutFire st serial).1 (.methodReturn serial args) =
         ((timeoutFire st serial).1, [])) := by
  refine ⟨rfl, ?_, ?_⟩
  · intro st serial h
    unfold timeoutFire
    rw [if_pos h]
  · intro st serial args hnd
    by_cases h : st.pendingCalls.contains serial = true
    · have e : (timeoutFire st serial).1 =
          { st with pendingCalls := st.pendingCalls.erase serial } := by
        unfold timeoutFire
        rw [if_pos h]
      rw [e]
      have hnm : serial ∉ st.pendingCalls.erase serial := List.Nodup.not_mem_erase hnd
      simp [handleOne, hnm]
    · have e : (timeoutFire st serial).1 = st := by
        unfold timeoutFire
        rw [if_neg h]
      rw [e]
      simp only [handleOne]
      rw [if_neg h]

/-- Witness for `busCallTimeout` at concrete inputs. -/
theorem busCallTimeout_witness :
    timeoutFire { serialCounter := 2, pendingCalls := [1] } 1 =
      ({ serialCounter := 2, pendingCalls := [] }, [BusEffect.rejectedTimeout 1]) ∧
    handleOne (timeoutFire { serialCounter := 2, pendingCalls := [1] } 1).1
        (WireMessage.methodReturn 1 []) =
      ((timeoutFire { serialCounter := 2, pendingCalls := [1] } 1).1, []) := by
  constructor
  · rw [busCallTimeout.2.1 { serialCounter := 2, pendingCalls := [1] } 1 (by decide)]
    rfl
  · exact busCallTimeout.2.2 { serialCounter := 2, pendingCalls := [1] } 1 [] (by decide)

/-! ## Claim theorems — per-member argument adaptation -/

/-- C9 counterexample: for the facade argument list `[[5]]` (the script
handle tuple `[5]` as its single element), the `LoadScript` branch
computes `message.args = [args[0]] = [[5]]` — identical to the facade's
argument list, not `[[[5]]]` as one extra tuple nesting level relative to
that list would give. -/
theorem loadScriptArgs_cex :
    adaptArgs "LoadScript" (some [Value.varr [Value.vnum 5]]) =
      some [Value.varr [Value.vnum 5]] ∧
    adaptArgs "LoadScript" (some [Value.varr [Value.vnum 5]]) ≠
      some [Value.varr [Value.varr [Value.vnum 5]]] := by
  constructor
  · rfl
  · intro h
    simp [adaptArgs] at h

/-- C9 (amended): for `LoadScript` and `DestroyScript` the adaptation
rebuilds `message.args` as the singleton `[args[0]]`, which for the
facade's single-element argument list leaves it unchanged — no extra
tuple nesting level is introduced relative to that list (the handle is a
one-element tuple only because `AgentScriptId` already is one) — while
the declared type signature handed to the parser is `((u))`. -/
theorem loadScriptArgsPassthrough :
    ∀ (v : Value) (rest : List Value),
      adaptArgs "LoadScript" (some (v :: rest)) = some [v] ∧
      adaptArgs "DestroyScript" (some (v :: rest)) = some [v] ∧
      memberSignature "LoadScript" = some "((u))" ∧
      memberSignature "DestroyScript" = some "((u))" :=
  fun _ _ => ⟨rfl, rfl, rfl, rfl⟩

/-! ## Claim theorems — Script message classification and RPC -/

theorem isInternalMessage_eq (m : Value) :
    isInternalMessage m = (jsIsStr (jsGet m "type") "send" && isRpcSendMessage m) := by
  simp [isInternalMessage, isRpcSendMessage, Bool.and_assoc]

/-- C3 counterexample: the decoded log message `{type: "log", level:
"info", payload: "hello"}` is routed to the log handler but is ALSO
forwarded to the user-level message handler: the `getProxy` wrapper
withholds only messages satisfying `isInternalMessage`, which tests the
`"frida:rpc"` payload marker and is false for log messages — contradicting
the claim that a log-type message is not forwarded to the user-level
handler. -/
theorem logMessageRouting_cex :
    isLogMessage logMessageSample = true ∧
    isInternalMessage logMessageSample = false ∧
    (dispatchMessage logMessageSample none).log =
      some (some (Value.vstr "info"), some (Value.vstr "hello")) ∧
    (dispatchMessage logMessageSample none).user = some (logMessageSample, none) ∧
    (dispatchMessage logMessageSample none).user ≠ none :=
  ⟨rfl, rfl, rfl, rfl, fun h => nomatch h⟩

/-- C3 (amended): a send-type message whose payload array begins with
`"frida:rpc"` is never forwarded to the user-level handler and is routed
to the RPC resolver with `(payload[1], payload[2], payload[3..])`; a
log-type message, or a send-type message whose payload object declares
type `"log"`, is routed to the current log handler with `(message.level,
message.payload)` — but, not being internal RPC traffic, it is also
forwarded to the user-level handler; any other message is forwarded to
the user-level handler with its optional binary payload and reaches
neither the log handler nor the RPC resolver. -/
theorem messageClassification :
    ∀ (m : Value) (data : Option BinaryData),
      (isInternalMessage m = true → (dispatchMessage m data).user = none) ∧
      (∀ payload : List Value, isInternalMessage m = true →
         jsGet m "payload" = some (.varr payload) →
         (dispatchMessage m data).rpc =
           some (payload.get? 1, payload.get? 2, payload.drop 3) ∧
         (dispatchMessage m data).log = none) ∧
      (isInternalMessage m = false → isLogMessage m = true →
         (dispatchMessage m data).log = some (jsGet m "level", jsGet m "payload") ∧
         (dispatchMessage m data).user = some (m, data) ∧
         (dispatchMessage m data).rpc = none) ∧
      (isInternalMessage m = false → isLogMessage m = false →
         (dispatchMessage m data).user = some (m, data) ∧
         (dispatchMessage m data).log = none ∧
         (dispatchMessage m data).rpc = none) := by
  intro m data
  refine ⟨?_, ?_, ?_, ?_⟩
  · intro h
    simp [dispatchMessage, h]
  · intro payload h hp
    have hsr : (jsIsStr (jsGet m "type") "send" && isRpcSendMessage m) = true := by
      rw [← isInternalMessage_eq]
      exact h
    constructor
    · simp [dispatchMessage, hsr, hp]
    · simp [dispatchMessage, hsr]
  · intro h hl
    have hsr : (jsIsStr (jsGet m "type") "send" && isRpcSendMessage m) = false := by
      rw [← isInternalMessage_eq]
      exact h
    refine ⟨?_, ?_, ?_⟩
    · simp [dispatchMessage, hsr, hl]
    · simp [dispatchMessage, h]
    · simp [dispatchMessage, hsr]
  · intro h hl
    have hsr : (jsIsStr (jsGet m "type") "send" && isRpcSendMessage m) = false := by
      rw [← isInternalMessage_eq]
      exact h
    exact ⟨by simp [dispatchMessage, h], by simp [dispatchMessage, hsr, hl],
           by simp [dispatchMessage, hsr]⟩

/-- Witness for `messageClassification` at concrete inputs. -/
theorem messageClassification_witness :
    (dispatchMessage rpcMessageSample none).user = none ∧
    (dispatchMessage logMessageSample none).user = some (logMessageSample, none) ∧
    (dispatchMessage plainSendSample none).user = some (plainSendSample, none) :=
  ⟨(messageClassification rpcMessageSample none).1 rfl,
   ((messageClassification logMessageSample none).2.2.1 rfl rfl).2.1,
   ((messageClassification plainSendSample none).2.2.2 rfl rfl).1⟩

/-- C4: an inbound internal RPC reply `(requestId, operation, params)`
with a matching pending request resolves it with `params[0]` when the
operation is `"ok"` and rejects it with an Error rebuilt from
`(params[0], params[1], params[2])` (message, name, stack) when the
operation is `"error"`, removing the request from the table either way; a
reply whose requestId has no pending request is dropped with no
effect. -/
theorem rpcReplyRouting :
    ∀ (pending : List String) (id : Int) (operation : String) (params : List Value),
      (pending.contains (toString id) = false →
         onRpcMessage pending id operation params = (pending, none)) ∧
      (pending.contains (toString id) = true → operation = "ok" →
         onRpcMessage pending id operation params =
           (pending.erase (toString id), some (.resolved (params.get? 0)))) ∧
      (pending.contains (toString id) = true → operation = "error" →
         onRpcMessage pending id operation params =
           (pending.erase (toString id),
            some (.rejected (params.get? 0) (params.get? 1) (params.get? 2)))) := by
  intro pending id operation params
  refine ⟨?_, ?_, ?_⟩
  · intro h
    simp only [onRpcMessage]
    rw [h]
  · intro h hop
    subst hop
    simp only [onRpcMessage]
    rw [h]
    rfl
  · intro h hop
    subst hop
    simp only [onRpcMessage]
    rw [h]
    rfl

/-- Witness for `rpcReplyRouting` at concrete inputs. -/
theorem rpcReplyRouting_witness :
    onRpcMessage ["1"] 1 "ok" [Value.vnum 7] =
      ([], some (RpcOutcome.resolved (some (Value.vnum 7)))) ∧
    onRpcMessage ["2"] 1 "ok" [Value.vnum 7] = (["2"], none) := by
  constructor
  · rw [(rpcReplyRouting ["1"] 1 "ok" [Value.vnum 7]).2.1 (by decide) rfl]
    rfl
  · rw [(rpcReplyRouting ["2"] 1 "ok" [Value.vnum 7]).1 (by decide)]

/-! ## Claim theorems — Client connection -/

/-- C8: the Client memoizes its single connection attempt: a second call
to the connection getter returns the same attempt with no state change
(so no second transport is opened while one attempt exists), an
establishment opens exactly one transport and fills the shared slot, and
on transport close the slot is cleared and every Session in the registry
is notified with a connection-terminated detach, leaving all of them
detached. -/
theorem connectionMemoization :
    (∀ c : ClientState, getHostConnection (getHostConnection c).1 = getHostConnection c) ∧
    (∀ c : ClientState, (getHostConnection c).1.transportsOpened ≤ c.transportsOpened + 1) ∧
    (∀ c : ClientState, c.hostConnectionRequest = none →
       (getHostConnection c).1.transportsOpened = c.transportsOpened + 1 ∧
       (getHostConnection c).1.hostConnectionRequest = some (getHostConnection c).2) ∧
    (∀ c : ClientState,
       (onTransportClose c).hostConnectionRequest = none ∧
       (onTransportClose c).sessions =
         c.sessions.map (fun s => Session.onDetached s .connectionTerminated none) ∧
       ∀ s ∈ (onTransportClose c).sessions, s.state = .detached) := by
  refine ⟨?_, ?_, ?_, ?_⟩
  · intro c
    cases hc : c.hostConnectionRequest with
    | some a => simp [getHostConnection, hc]
    | none => simp [getHostConnection, hc]
  · intro c
    cases hc : c.hostConnectionRequest with
    | some a => simp [getHostConnection, hc]
    | none => simp [getHostConnection, hc]
  · intro c hc
    constructor <;> simp [getHostConnection, hc]
  · intro c
    refine ⟨rfl, rfl, ?_⟩
    intro s hs
    simp only [onTransportClose, List.mem_map] at hs
    obtain ⟨s0, _, rfl⟩ := hs
    exact onDetached_state s0 .connectionTerminated none

/-- Witness for `connectionMemoization` at concrete inputs. -/
theorem connectionMemoization_witness :
    (getHostConnection sampleClient0).1.transportsOpened = sampleClient0.transportsOpened + 1 ∧
    ∀ s ∈ (onTransportClose sampleClient1).sessions, s.state = SessionState.detached :=
  ⟨(connectionMemoization.2.2.1 sampleClient0 rfl).1,
   (connectionMemoization.2.2.2 sampleClient1).2.2⟩

end FridaWeb
